import Mathlib

/-!
Verification development for the express-boilerplate repository.

Part 1 embeds the request-validation middleware of
`src/middleware/validation.enhanced.ts` together with a model of the zod
schema-validation library it delegates to.  Part 2 embeds the controller
metadata registry and its two materializers (router and OpenAPI
documentation) described in the specification, and the documentation
helper `DocHelpers.endpoint` of `src/config/docs.config.ts`.
-/

/-- JSON-like values, the data carried by a request body, its path
parameters and its query string. -/
inductive Json where
  | null
  | bool (b : Bool)
  | num (n : Int)
  | str (s : String)
  | arr (items : List Json)
  | obj (fields : List (String × Json))

/-- One validation issue reported by the schema library: the path of the
failing field inside the validated value, and a message.  Mirrors the
`path` and `message` fields of a zod issue. -/
structure ZodIssue where
  path : List String
  message : String
deriving DecidableEq

/-- Result of `schema.safeParse(value)`: either
`\x7b success: true, data \x7d` or `\x7b success: false, error \x7d`
carrying the list of issues. -/
inductive ParseResult where
  | success (data : Json)
  | failure (issues : List ZodIssue)

/-- A zod schema, modelled by what the middleware observes of it: its
`safeParse` function. -/
abbrev ZodSchema := Json → ParseResult

/-- Models the acceptance test of the zod email format check, abstracted
from its regular expression: the string must contain an at-sign with a
nonempty local part before it, a nonempty domain after it containing no
further at-sign, and the domain must contain a dot.  Every string
without an at-sign (such as "not-an-email") is invalid under the real
regular expression as well. -/
def emailOk (s : String) : Bool :=
  let cs := s.data
  let lpart := cs.takeWhile (· != '@')
  match cs.dropWhile (· != '@') with
  | [] => false
  | _ :: domain =>
    !lpart.isEmpty && !domain.isEmpty && domain.all (· != '@') && domain.contains '.'

/-- Models `z.string().email()`: a non-string value is a type error, a
string failing the email format check yields an issue with message
"Invalid email" (the zod default) at the root path. -/
def zStringEmail : ZodSchema := fun v =>
  match v with
  | Json.str s =>
    if emailOk s then ParseResult.success v
    else ParseResult.failure [ZodIssue.mk [] "Invalid email"]
  | _ => ParseResult.failure [ZodIssue.mk [] "Expected string"]

/-- Models `z.string().min(n)`: a non-string value is a type error, a
string shorter than `n` yields the zod default minimum-length message at
the root path. -/
def zStringMin (n : Nat) : ZodSchema := fun v =>
  match v with
  | Json.str s =>
    if n ≤ s.length then ParseResult.success v
    else
      ParseResult.failure
        [ZodIssue.mk [] ("String must contain at least " ++ toString n ++ " character(s)")]
  | _ => ParseResult.failure [ZodIssue.mk [] "Expected string"]

/-- Models `z.object(shape)`: a non-object value is a type error; for an
object, every key of the shape is looked up: a missing key yields a
"Required" issue at that key, a present key is parsed by its schema with
the issue paths prefixed by the key.  All issues across keys are
collected (zod aborts on none of them); on full success the parsed
object keeps exactly the shape keys (unknown keys are stripped, the zod
default). -/
def zObject (shape : List (String × ZodSchema)) : ZodSchema := fun v =>
  match v with
  | Json.obj fields =>
    let results : List (Sum (List ZodIssue) (String × Json)) :=
      shape.map (fun p =>
        match fields.lookup p.1 with
        | none => Sum.inl [ZodIssue.mk [p.1] "Required"]
        | some fv =>
          match p.2 fv with
          | ParseResult.success d => Sum.inr (p.1, d)
          | ParseResult.failure issues =>
            Sum.inl (issues.map (fun i => ZodIssue.mk (p.1 :: i.path) i.message)))
    let issues := results.foldr
      (fun r acc => match r with | Sum.inl is => is ++ acc | Sum.inr _ => acc) []
    if issues.isEmpty then
      ParseResult.success
        (Json.obj (results.foldr
          (fun r acc => match r with | Sum.inl _ => acc | Sum.inr kv => kv :: acc) []))
    else ParseResult.failure issues
  | _ => ParseResult.failure [ZodIssue.mk [] "Expected object"]

/-- The `ValidationSchemas` interface of
`src/middleware/validation.enhanced.ts`: optional schemas for the body,
params and query parts of a request. -/
structure ValidationSchemas where
  body : Option ZodSchema
  params : Option ZodSchema
  query : Option ZodSchema

/-- The mutable request parts the middleware reads and may overwrite:
`req.body`, `req.params`, `req.query`. -/
structure Req where
  body : Json
  params : Json
  query : Json

/-- One entry of the `errors` array of the middleware error response:
`\x7b field, message \x7d`. -/
structure FieldError where
  field : String
  message : String
deriving DecidableEq

/-- The JSON payload the middleware sends on validation failure:
`\x7b success, message, errors \x7d`. -/
structure ValidationErrorBody where
  success : Bool
  message : String
  errors : List FieldError
deriving DecidableEq

/-- What the middleware does with the request after inspecting it:
either it calls `next()` or it sends exactly one response with a status
code and a structured payload and returns. -/
inductive Outcome where
  | next
  | resp (status : Nat) (body : ValidationErrorBody)
deriving DecidableEq

/-- Translation of `validateRequestEnhanced` from
`src/middleware/validation.enhanced.ts`.  The returned function
validates body, then params, then query against the supplied schemas,
accumulating `\x7b field, message \x7d` entries with the field name
built as `body.` (resp. `params.`, `query.`) followed by the dot-joined
issue path; a part that parses successfully is written back to the
request.  If the accumulated error list is nonempty the middleware
responds with status 400 and the structured payload and returns,
otherwise it calls `next()`.  The result models the final request state
and the single outcome. -/
def validateRequestEnhanced (schemas : ValidationSchemas) (req : Req) : Req × Outcome :=
  -- Validate body
  let step1 : List FieldError × Req :=
    match schemas.body with
    | none => ([], req)
    | some schema =>
      match schema req.body with
      | ParseResult.failure issues =>
        (issues.map (fun e =>
          FieldError.mk ("body." ++ String.intercalate "." e.path) e.message), req)
      | ParseResult.success data => ([], Req.mk data req.params req.query)
  -- Validate params
  let step2 : List FieldError × Req :=
    match schemas.params with
    | none => step1
    | some schema =>
      match schema step1.2.params with
      | ParseResult.failure issues =>
        (step1.1 ++ issues.map (fun e =>
          FieldError.mk ("params." ++ String.intercalate "." e.path) e.message), step1.2)
      | ParseResult.success data =>
        (step1.1, Req.mk step1.2.body data step1.2.query)
  -- Validate query
  let step3 : List FieldError × Req :=
    match schemas.query with
    | none => step2
    | some schema =>
      match schema step2.2.query with
      | ParseResult.failure issues =>
        (step2.1 ++ issues.map (fun e =>
          FieldError.mk ("query." ++ String.intercalate "." e.path) e.message), step2.2)
      | ParseResult.success data =>
        (step2.1, Req.mk step2.2.body step2.2.params data)
  -- If there are validation errors, return them
  if 0 < step3.1.length then
    (step3.2, Outcome.resp 400 (ValidationErrorBody.mk false "Validation error" step3.1))
  else
    (step3.2, Outcome.next)

/-- Translation of `validateRequest` (kept in the source for backward
compatibility): validation of the body only. -/
def validateRequest (schema : ZodSchema) : Req → Req × Outcome :=
  validateRequestEnhanced (ValidationSchemas.mk (some schema) none none)

/-- The issues a supplied schema reports on a value: none when no schema
is supplied or the parse succeeds. -/
def partIssues (schema : Option ZodSchema) (v : Json) : List ZodIssue :=
  match schema with
  | none => []
  | some s =>
    match s v with
    | ParseResult.success _ => []
    | ParseResult.failure issues => issues

/-- The `\x7b field, message \x7d` entries contributed by one request
part: each issue becomes one entry whose field is the part prefix
followed by the dot-joined issue path. -/
def partErrors (pre : String) (schema : Option ZodSchema) (v : Json) : List FieldError :=
  (partIssues schema v).map
    (fun i => FieldError.mk (pre ++ String.intercalate "." i.path) i.message)

/-- All error entries of a request, aggregated across the three parts in
the order body, params, query. -/
def collectedErrors (schemas : ValidationSchemas) (req : Req) : List FieldError :=
  partErrors "body." schemas.body req.body
    ++ partErrors "params." schemas.params req.params
    ++ partErrors "query." schemas.query req.query

/-- The value a request part holds after the middleware ran: unchanged
when no schema is supplied or the schema rejects, the parsed data when
the schema accepts. -/
def parsedPart (schema : Option ZodSchema) (v : Json) : Json :=
  match schema with
  | none => v
  | some s =>
    match s v with
    | ParseResult.success d => d
    | ParseResult.failure _ => v

/-- The request state after the middleware ran, part by part. -/
def mutatedReq (schemas : ValidationSchemas) (req : Req) : Req :=
  Req.mk (parsedPart schemas.body req.body) (parsedPart schemas.params req.params)
    (parsedPart schemas.query req.query)

/-- The body schema of the specification scenario: email must be a
string in email format and password a string of at least 8
characters. -/
def scenarioBodySchema : ZodSchema :=
  zObject [("email", zStringEmail), ("password", zStringMin 8)]

/-- Validation schemas validating only the body, with the scenario
schema. -/
def scenarioSchemas : ValidationSchemas :=
  ValidationSchemas.mk (some scenarioBodySchema) none none

/-- The scenario request: body `\x7b "email": "not-an-email" \x7d`,
empty params and query. -/
def scenarioReq : Req :=
  Req.mk (Json.obj [("email", Json.str "not-an-email")]) (Json.obj []) (Json.obj [])

/-- The HTTP verbs of the route decorators. -/
inductive HttpMethod where
  | get
  | post
  | put
  | patch
  | delete
deriving DecidableEq

/-- The lower-cased rendering of an HTTP verb, the key form used by the
OpenAPI path items. -/
def methodLower : HttpMethod → String
  | HttpMethod.get => "get"
  | HttpMethod.post => "post"
  | HttpMethod.put => "put"
  | HttpMethod.patch => "patch"
  | HttpMethod.delete => "delete"

/-- Modelled from the spec: the optional documentation attributes of a
decorated method (spec section 3, `docFields`), carried by the metadata
store of the missing `src/decorators` module — summary, description,
tag list, per-status-code response descriptions, bearer-auth flag. -/
structure DocFields where
  summary : Option String
  description : Option String
  tags : List String
  responses : List (Nat × String)
  bearerAuth : Bool
deriving DecidableEq

/-- Modelled from the spec: one `RouteMetadata` record of the metadata
store (spec section 3): HTTP verb (absent when the method carries no
verb decorator), path relative to the base path, a reference to the
handler, the declared middleware sequence, optional validation schemas
and optional documentation fields. -/
structure RouteMetadata where
  httpMethod : Option HttpMethod
  path : String
  handlerRef : Nat
  middlewares : List Nat
  validation : Option ValidationSchemas
  docFields : Option DocFields

/-- Modelled from the spec: the class-level metadata of a controller
(spec section 3): base path, tags, and the route records in method
declaration order. -/
structure ControllerMetadata where
  basePath : String
  tags : List String
  routes : List RouteMetadata

/-- One route registration on the materialized router: verb, full path
(base path concatenated with the method path), handler reference,
middleware chain and validation schemas. -/
structure Registration where
  httpMethod : HttpMethod
  fullPath : String
  handlerRef : Nat
  middlewares : List Nat
  validation : Option ValidationSchemas

/-- The declarative per-route materialization: a method without a verb
decorator yields no registration, otherwise the registration under the
base-path-prefixed full path. -/
def materializeRoute (basePath : String) (r : RouteMetadata) : Option Registration :=
  match r.httpMethod with
  | none => none
  | some m =>
    some (Registration.mk m (basePath ++ r.path) r.handlerRef r.middlewares r.validation)

/-- Modelled from the spec: the registration loop of the missing router
materializer `createRouterFromController` (spec section 4.2): walk the
route records in declaration order, skip methods without a verb
decorator, and register each remaining one on the router in turn. -/
def registerRoutes (basePath : String) (router : List Registration)
    (rs : List RouteMetadata) : List Registration :=
  match rs with
  | [] => router
  | r :: rest =>
    match r.httpMethod with
    | none => registerRoutes basePath router rest
    | some m =>
      registerRoutes basePath
        (router ++ [Registration.mk m (basePath ++ r.path) r.handlerRef r.middlewares
          r.validation])
        rest

/-- Modelled from the spec: `createRouterFromController` of the missing
`src/decorators/router.generator.ts` (spec section 4.2): materialize a
controller into its ordered list of route registrations. -/
def createRouterFromController (ctrl : ControllerMetadata) : List Registration :=
  registerRoutes ctrl.basePath [] ctrl.routes

/-- Modelled from the spec: route resolution on the materialized router
with the last-write-wins semantics the spec ascribes to duplicate
`(httpMethod, fullPath)` registrations (spec sections 4.2 and 7): a
lookup prefers the handler of the latest matching registration and
never raises. -/
def resolveRoute (router : List Registration) (m : HttpMethod) (p : String) : Option Nat :=
  match router with
  | [] => none
  | r :: rest =>
    match resolveRoute rest m p with
    | some h => some h
    | none => if r.httpMethod = m ∧ r.fullPath = p then some r.handlerRef else none

/-- One OpenAPI operation object as the documentation materializer emits
it: summary, description, tags, optional security requirement and the
response entries (status code with description). -/
structure SwaggerOperation where
  summary : String
  description : String
  tags : List String
  security : Option (List (String × List String))
  responses : List (Nat × String)
deriving DecidableEq

/-- One emitted path item: the full path key, the lower-cased method
key, and the operation object. -/
structure SwaggerPathItem where
  path : String
  method : String
  operation : SwaggerOperation
deriving DecidableEq

/-- Modelled from the spec: the operation object built from the optional
`docFields` of a route by the missing documentation materializer (spec
section 4.3): summary, description and tags fall back to empty-but-valid
defaults when absent, an absent description falls back to the summary, a
set bearer-auth flag emits the `bearerAuth` security requirement, and
exactly the declared response entries are emitted. -/
def docOperation (df : Option DocFields) : SwaggerOperation :=
  match df with
  | none => SwaggerOperation.mk "" "" [] none []
  | some d =>
    SwaggerOperation.mk
      (d.summary.getD "")
      (match d.description with
       | some s => s
       | none => d.summary.getD "")
      d.tags
      (if d.bearerAuth then some [("bearerAuth", [])] else none)
      d.responses

/-- Modelled from the spec: the per-route emission of the missing
documentation materializer (spec section 4.3): a method without a verb
decorator emits nothing, otherwise one path item keyed by the full path
(mount prefix, then base path, then method path) and the lower-cased
method. -/
def materializeDocItem (mount basePath : String) (r : RouteMetadata) :
    Option SwaggerPathItem :=
  match r.httpMethod with
  | none => none
  | some m =>
    some (SwaggerPathItem.mk (mount ++ basePath ++ r.path) (methodLower m)
      (docOperation r.docFields))

/-- Modelled from the spec: `generateSwaggerFromController` of the
missing `src/decorators/router.generator.ts` (spec section 4.3): emit
one path item per verb-decorated route record, reading the same metadata
store as the router materializer. -/
def generateSwaggerFromController (ctrl : ControllerMetadata) (mount : String) :
    List SwaggerPathItem :=
  ctrl.routes.filterMap (materializeDocItem mount ctrl.basePath)

/-- The method keys a path item may use. -/
def validMethods : List String := ["get", "post", "put", "patch", "delete"]

/-- Structural well-formedness of an emitted operation: a security
requirement, when present, is exactly the bearer-auth block. -/
def wellFormedOperation (op : SwaggerOperation) : Bool :=
  match op.security with
  | none => true
  | some l => decide (l = [("bearerAuth", [])])

/-- Structural well-formedness of an emitted path item: a valid
lower-cased method key and a well-formed operation. -/
def wellFormedItem (i : SwaggerPathItem) : Bool :=
  validMethods.contains i.method && wellFormedOperation i.operation

/-- The configuration record of `DocHelpers.endpoint` in
`src/config/docs.config.ts`: method, path, summary and tags are
mandatory, description, auth flag, body schema name and response code
list are optional. -/
structure EndpointConfig where
  method : String
  path : String
  summary : String
  description : Option String
  tags : List String
  auth : Option Bool
  body : Option String
  responses : Option (List Nat)

/-- The structured content of the swagger JSDoc block emitted by
`DocHelpers.endpoint`: path and lower-cased method key, summary,
description, tags, the security block when present, the request-body
schema reference when present, and one response entry per status code,
each a reference into the shared `components/responses` registry. -/
structure EndpointDoc where
  path : String
  method : String
  summary : String
  description : String
  tags : List String
  security : Option (List (String × List String))
  requestBodyRef : Option String
  responses : List (Nat × String)
deriving DecidableEq

namespace DocHelpers

/-- Translation of `DocHelpers.endpoint` from
`src/config/docs.config.ts` (lines 374-392), as the structured content
of the swagger JSDoc string it emits.  Field by field: the method key is
`config.method.toLowerCase()`; the description is
`config.description || config.summary` (empty or absent falls back to
the summary, matching JavaScript truthiness); the security block
`security: - bearerAuth: []` is emitted exactly when `config.auth` is
truthy; the request-body reference
`#/components/schemas/<name>` is emitted exactly when `config.body` is
truthy; the responses are `config.responses || [200, 400, 500]` (an
absent list falls back to the default, a present list — even an empty
one — is kept, matching JavaScript truthiness of arrays), each code
emitted as one entry referencing `#/components/responses/<code>`. -/
def endpoint (config : EndpointConfig) : EndpointDoc :=
  EndpointDoc.mk
    config.path
    config.method.toLower
    config.summary
    (match config.description with
     | some d => if d = "" then config.summary else d
     | none => config.summary)
    config.tags
    (match config.auth with
     | some true => some [("bearerAuth", [])]
     | some false => none
     | none => none)
    (match config.body with
     | some s => if s = "" then none else some ("#/components/schemas/" ++ s)
     | none => none)
    ((match config.responses with
      | some rs => rs
      | none => [200, 400, 500]).map
        (fun code => (code, "#/components/responses/" ++ toString code)))

end DocHelpers

/-- The documentation fields of the specification scenario method: a
profile endpoint with bearer auth and responses 200 and 401. -/
def profileDocFields : DocFields :=
  DocFields.mk (some "Get user profile") (some "Get the authenticated user profile")
    ["Users"] [(200, "Profile retrieved successfully"), (401, "Unauthorized")] true

/-- The scenario route record: a GET method at `/profile`. -/
def profileRoute : RouteMetadata :=
  RouteMetadata.mk (some HttpMethod.get) "/profile" 0 [] none (some profileDocFields)

/-- The scenario controller: base path `/users` with the single profile
route. -/
def profileController : ControllerMetadata :=
  ControllerMetadata.mk "/users" [] [profileRoute]

theorem validateRequestEnhanced_eq (schemas : ValidationSchemas) (req : Req) :
    validateRequestEnhanced schemas req =
      (mutatedReq schemas req,
       if 0 < (collectedErrors schemas req).length then
         Outcome.resp 400
           (ValidationErrorBody.mk false "Validation error" (collectedErrors schemas req))
       else Outcome.next) := by
  rcases schemas with ⟨ob, op, oq⟩
  rcases req with ⟨b, p, q⟩
  simp only [validateRequestEnhanced, mutatedReq, collectedErrors, partErrors, partIssues,
    parsedPart]
  cases ob with
  | none =>
    cases op with
    | none =>
      cases oq with
      | none => simp [apply_ite] <;> split <;> simp_all [List.length_pos] <;> tauto
      | some sq => cases hq : sq q <;> simp [apply_ite, hq] <;> split <;> simp_all [List.length_pos] <;> tauto
    | some sp =>
      cases hp : sp p with
      | success d =>
        cases oq with
        | none => simp [apply_ite, hp] <;> split <;> simp_all [List.length_pos] <;> tauto
        | some sq => cases hq : sq q <;> simp [apply_ite, hp, hq] <;> split <;> simp_all [List.length_pos] <;> tauto
      | failure is =>
        cases oq with
        | none => simp [apply_ite, hp] <;> split <;> simp_all [List.length_pos] <;> tauto
        | some sq => cases hq : sq q <;> simp [apply_ite, hp, hq] <;> split <;> simp_all [List.length_pos] <;> tauto
  | some sb =>
    cases hb : sb b with
    | success d =>
      cases op with
      | none =>
        cases oq with
        | none => simp [apply_ite, hb] <;> split <;> simp_all [List.length_pos] <;> tauto
        | some sq => cases hq : sq q <;> simp [apply_ite, hb, hq] <;> split <;> simp_all [List.length_pos] <;> tauto
      | some sp =>
        cases hp : sp p with
        | success d2 =>
          cases oq with
          | none => simp [apply_ite, hb, hp] <;> split <;> simp_all [List.length_pos] <;> tauto
          | some sq => cases hq : sq q <;> simp [apply_ite, hb, hp, hq] <;> split <;> simp_all [List.length_pos] <;> tauto
        | failure is2 =>
          cases oq with
          | none => simp [apply_ite, hb, hp] <;> split <;> simp_all [List.length_pos] <;> tauto
          | some sq => cases hq : sq q <;> simp [apply_ite, hb, hp, hq] <;> split <;> simp_all [List.length_pos] <;> tauto
    | failure is =>
      cases op with
      | none =>
        cases oq with
        | none => simp [apply_ite, hb] <;> split <;> simp_all [List.length_pos] <;> tauto
        | some sq => cases hq : sq q <;> simp [apply_ite, hb, hq] <;> split <;> simp_all [List.length_pos] <;> tauto
      | some sp =>
        cases hp : sp p with
        | success d2 =>
          cases oq with
          | none => simp [apply_ite, hb, hp] <;> split <;> simp_all [List.length_pos] <;> tauto
          | some sq => cases hq : sq q <;> simp [apply_ite, hb, hp, hq] <;> split <;> simp_all [List.length_pos] <;> tauto
        | failure is2 =>
          cases oq with
          | none => simp [apply_ite, hb, hp] <;> split <;> simp_all [List.length_pos] <;> tauto
          | some sq => cases hq : sq q <;> simp [apply_ite, hb, hp, hq] <;> split <;> simp_all [List.length_pos] <;> tauto

theorem partErrors_ne_nil_of_or {schemas : ValidationSchemas} {req : Req}
    (h : partErrors "body." schemas.body req.body ≠ []
       ∨ partErrors "params." schemas.params req.params ≠ []
       ∨ partErrors "query." schemas.query req.query ≠ []) :
    collectedErrors schemas req ≠ [] := by
  simp only [collectedErrors, ne_eq, List.append_eq_nil]
  rcases h with h | h | h <;> tauto

theorem registerRoutes_eq (bp : String) :
    ∀ (rs : List RouteMetadata) (acc : List Registration),
      registerRoutes bp acc rs = acc ++ rs.filterMap (materializeRoute bp) := by
  intro rs
  induction rs with
  | nil => intro acc; simp [registerRoutes]
  | cons r rest ih =>
    intro acc
    cases hm : r.httpMethod <;> simp [registerRoutes, materializeRoute, hm, ih]

theorem docKeys_eq_routerKeys (bp mount : String) :
    ∀ rs : List RouteMetadata,
      ((rs.filterMap (materializeDocItem mount bp)).map (fun i => (i.method, i.path)))
        = ((rs.filterMap (materializeRoute bp)).map
            (fun r => (methodLower r.httpMethod, mount ++ r.fullPath))) := by
  intro rs
  induction rs with
  | nil => rfl
  | cons r rest ih =>
    cases hm : r.httpMethod <;>
      simp [materializeDocItem, materializeRoute, hm, ih, String.append_assoc]

theorem docItems_length (bp mount : String) :
    ∀ rs : List RouteMetadata,
      (rs.filterMap (materializeDocItem mount bp)).length
        = rs.countP (fun r => r.httpMethod.isSome) := by
  intro rs
  induction rs with
  | nil => rfl
  | cons r rest ih =>
    cases hm : r.httpMethod <;> simp [materializeDocItem, hm, ih, List.countP_cons]

theorem wellFormed_docItem {mount bp : String} {r : RouteMetadata} {item : SwaggerPathItem}
    (h : materializeDocItem mount bp r = some item) : wellFormedItem item = true := by
  cases hm : r.httpMethod with
  | none => simp [materializeDocItem, hm] at h
  | some m =>
    simp [materializeDocItem, hm] at h
    subst h
    cases m <;> cases hd : r.docFields with
      | none => simp [wellFormedItem, validMethods, methodLower, wellFormedOperation,
          docOperation]
      | some d =>
        cases hb : d.bearerAuth <;>
          simp [wellFormedItem, validMethods, methodLower, wellFormedOperation, docOperation,
            hb]

/-- C1: for every request and every `ValidationSchemas` value, when at
least one supplied body/params/query schema rejects its part (reporting
at least one issue, as zod always does on failure), the middleware
returned by `validateRequestEnhanced` yields exactly one structured
response `\x7b success: false, message: "Validation error", errors \x7d`
whose errors array has one `\x7b field, message \x7d` entry per reported
issue, aggregated across body, params and query rather than stopping at
the first failing part.  The model's `Outcome` is the single action the
middleware takes, since the source returns immediately after sending the
response. -/
theorem validation_failure_yields_single_aggregated_response
    (schemas : ValidationSchemas) (req : Req)
    (h : partErrors "body." schemas.body req.body ≠ []
       ∨ partErrors "params." schemas.params req.params ≠ []
       ∨ partErrors "query." schemas.query req.query ≠ []) :
    (validateRequestEnhanced schemas req).2 =
      Outcome.resp 400 (ValidationErrorBody.mk false "Validation error"
        (partErrors "body." schemas.body req.body
          ++ partErrors "params." schemas.params req.params
          ++ partErrors "query." schemas.query req.query)) := by
  have hp := List.length_pos.mpr (partErrors_ne_nil_of_or h)
  rw [validateRequestEnhanced_eq, if_pos hp]
  rfl

/-- C1 witness: the concrete scenario request fails its body schema and
yields the aggregated 400 response. -/
theorem validation_failure_yields_single_aggregated_response_witness :
    (validateRequestEnhanced scenarioSchemas scenarioReq).2 =
      Outcome.resp 400 (ValidationErrorBody.mk false "Validation error"
        (partErrors "body." scenarioSchemas.body scenarioReq.body
          ++ partErrors "params." scenarioSchemas.params scenarioReq.params
          ++ partErrors "query." scenarioSchemas.query scenarioReq.query)) :=
  validation_failure_yields_single_aggregated_response scenarioSchemas scenarioReq
    (Or.inl (by decide))

/-- C2: if any supplied schema fails on its part of the request
(reporting at least one issue), the middleware responds with HTTP status
400 and does not call `next()`, so the downstream handler never runs on
non-conforming data. -/
theorem validation_failure_rejects_before_handler
    (schemas : ValidationSchemas) (req : Req)
    (h : collectedErrors schemas req ≠ []) :
    (validateRequestEnhanced schemas req).2 =
        Outcome.resp 400 (ValidationErrorBody.mk false "Validation error"
          (collectedErrors schemas req))
      ∧ (validateRequestEnhanced schemas req).2 ≠ Outcome.next := by
  have hp := List.length_pos.mpr h
  rw [validateRequestEnhanced_eq]
  simp [hp]

/-- C2 witness: on the concrete scenario request the middleware responds
400 and does not call `next()`. -/
theorem validation_failure_rejects_before_handler_witness :
    (validateRequestEnhanced scenarioSchemas scenarioReq).2 =
        Outcome.resp 400 (ValidationErrorBody.mk false "Validation error"
          (collectedErrors scenarioSchemas scenarioReq))
      ∧ (validateRequestEnhanced scenarioSchemas scenarioReq).2 ≠ Outcome.next :=
  validation_failure_rejects_before_handler scenarioSchemas scenarioReq (by decide)

/-- C3: for every controller and mount prefix, the list of
`(lower-cased method, full path)` keys emitted by the documentation
materializer equals, entry for entry, the registrations of the router
materializer rendered the same way — so the two materializers, reading
the same metadata store, produce the same set of route keys.  The claim
is settled against the spec-modelled materializers, the decorators
module being absent from the sources. -/
theorem router_and_docs_emit_same_route_keys
    (ctrl : ControllerMetadata) (mount : String) :
    (generateSwaggerFromController ctrl mount).map (fun i => (i.method, i.path)) =
      (createRouterFromController ctrl).map
        (fun r => (methodLower r.httpMethod, mount ++ r.fullPath)) := by
  rw [createRouterFromController, registerRoutes_eq, generateSwaggerFromController]
  simpa using docKeys_eq_routerKeys ctrl.basePath mount ctrl.routes

/-- C5: the scenario of the specification — a body schema requiring
`email` (string, email format) and `password` (string, minimum length
8), a request body `\x7b "email": "not-an-email" \x7d` — yields the 400
response whose errors array contains both the `body.email` format entry
and the `body.password` required entry, and nothing else. -/
theorem email_password_scenario_reports_both_fields :
    (validateRequestEnhanced scenarioSchemas scenarioReq).2 =
        Outcome.resp 400 (ValidationErrorBody.mk false "Validation error"
          [FieldError.mk "body.email" "Invalid email",
           FieldError.mk "body.password" "Required"])
      ∧ FieldError.mk "body.email" "Invalid email"
          ∈ collectedErrors scenarioSchemas scenarioReq
      ∧ FieldError.mk "body.password" "Required"
          ∈ collectedErrors scenarioSchemas scenarioReq := by
  decide

/-- C8: the router materializer registers routes in method declaration
order — its registration list is exactly the declaration-order
materialization of the route records, verb-less methods skipped — and
when two registrations share the same `(httpMethod, fullPath)` pair,
route resolution returns the handler of the later one (last-write-wins)
instead of raising: appending a registration for a key makes its handler
the resolved one whatever was registered before.  Settled against the
spec-modelled router materializer, the decorators module being absent
from the sources. -/
theorem routes_registered_in_declaration_order_last_wins :
    (∀ ctrl : ControllerMetadata,
        createRouterFromController ctrl
          = ctrl.routes.filterMap (materializeRoute ctrl.basePath))
      ∧ (∀ (router : List Registration) (m : HttpMethod) (p : String) (hr : Nat)
          (mws : List Nat) (vs : Option ValidationSchemas),
          resolveRoute (router ++ [Registration.mk m p hr mws vs]) m p = some hr) := by
  constructor
  · intro ctrl
    rw [createRouterFromController, registerRoutes_eq]
    simp
  · intro router m p hr mws vs
    induction router with
    | nil => simp [resolveRoute]
    | cons r rest ih => simp [resolveRoute, ih]

/-- C9: whenever the middleware responds, the status is 400 and the
errors array is ordered deterministically by request part — all body
issues first, then all params issues, then all query issues, each in the
schema library's issue order — and every entry's field name is the part
name, a dot, and the dot-joined path of the failing field within the
part. -/
theorem errors_ordered_by_part_with_dotted_fields
    (schemas : ValidationSchemas) (req : Req) (eb : ValidationErrorBody)
    (h : (validateRequestEnhanced schemas req).2 = Outcome.resp 400 eb) :
    eb.errors =
      (partIssues schemas.body req.body).map
        (fun i => FieldError.mk ("body." ++ String.intercalate "." i.path) i.message)
      ++ (partIssues schemas.params req.params).map
        (fun i => FieldError.mk ("params." ++ String.intercalate "." i.path) i.message)
      ++ (partIssues schemas.query req.query).map
        (fun i => FieldError.mk ("query." ++ String.intercalate "." i.path) i.message) := by
  rw [validateRequestEnhanced_eq] at h
  by_cases hc : 0 < (collectedErrors schemas req).length
  · rw [if_pos hc] at h
    have hb : Outcome.resp 400 (ValidationErrorBody.mk false "Validation error"
        (collectedErrors schemas req)) = Outcome.resp 400 eb := h
    cases hb
    rfl
  · rw [if_neg hc] at h
    exact absurd h (by simp)

/-- C9 witness: on the concrete scenario request the errors of the sent
response are the body issues (in order) with dotted field names,
followed by the (empty) params and query contributions. -/
theorem errors_ordered_by_part_with_dotted_fields_witness :
    (ValidationErrorBody.mk false "Validation error"
        [FieldError.mk "body.email" "Invalid email",
         FieldError.mk "body.password" "Required"]).errors =
      (partIssues scenarioSchemas.body scenarioReq.body).map
        (fun i => FieldError.mk ("body." ++ String.intercalate "." i.path) i.message)
      ++ (partIssues scenarioSchemas.params scenarioReq.params).map
        (fun i => FieldError.mk ("params." ++ String.intercalate "." i.path) i.message)
      ++ (partIssues scenarioSchemas.query scenarioReq.query).map
        (fun i => FieldError.mk ("query." ++ String.intercalate "." i.path) i.message) :=
  errors_ordered_by_part_with_dotted_fields scenarioSchemas scenarioReq
    (ValidationErrorBody.mk false "Validation error"
      [FieldError.mk "body.email" "Invalid email",
       FieldError.mk "body.password" "Required"])
    (by decide)

/-- C10: the middleware's frame effect — the request state after the
middleware ran is `mutatedReq`: a part with no supplied schema passes
through unchanged, a part whose schema rejects keeps its original value,
and a part whose schema parses successfully is overwritten with the
parsed result.  The equation holds whatever the outcome is, so a
successfully parsed part is overwritten even when another part fails and
the 400 response is sent. -/
theorem middleware_mutates_only_validated_parts
    (schemas : ValidationSchemas) (req : Req) :
    (validateRequestEnhanced schemas req).1 = mutatedReq schemas req := by
  rw [validateRequestEnhanced_eq]

/-- C4: the documentation materializer emits, for every verb-decorated
route, one path item whose responses are exactly the declared
`docFields.responses` entries — one entry per declared status code, each
carrying its declared description, nothing for undeclared codes — and
when `docFields` is entirely absent it still emits a well-formed minimal
operation with no response entries.  Settled against the spec-modelled
documentation materializer, the decorators module being absent from the
sources. -/
theorem docs_emit_exactly_declared_responses :
    (∀ (bp : String) (ctags : List String) (rs1 rs2 : List RouteMetadata)
        (m : HttpMethod) (pth : String) (hr : Nat) (mws : List Nat)
        (vs : Option ValidationSchemas) (df : Option DocFields) (mount : String),
      SwaggerPathItem.mk (mount ++ bp ++ pth) (methodLower m) (docOperation df)
        ∈ generateSwaggerFromController
            (ControllerMetadata.mk bp ctags
              (rs1 ++ RouteMetadata.mk (some m) pth hr mws vs df :: rs2)) mount)
      ∧ (∀ df : DocFields, (docOperation (some df)).responses = df.responses)
      ∧ (docOperation none).responses = []
      ∧ wellFormedOperation (docOperation none) = true := by
  refine ⟨?_, fun df => rfl, rfl, rfl⟩
  intro bp ctags rs1 rs2 m pth hr mws vs df mount
  apply List.mem_filterMap.mpr
  exact ⟨RouteMetadata.mk (some m) pth hr mws vs df, by simp, rfl⟩

/-- C6: the documentation generators emit the security requirement
`security: [ \x7b bearerAuth: [] \x7d ]` on an operation exactly when
its bearer-auth flag is truthy, and no security entry otherwise — shown
both for the `DocHelpers.endpoint` helper of the sources and for the
spec-modelled documentation materializer — and the specification
scenario holds: a controller with base path `/users` and one GET
`/profile` method with `bearerAuth = true` and responses 200 and 401
materializes route GET `/users/profile` and a documentation entry at the
same path with the security block and exactly those two response
entries. -/
theorem bearer_auth_security_iff_flag_and_profile_scenario :
    (∀ config : EndpointConfig,
        (DocHelpers.endpoint config).security =
          (if config.auth = some true then some [("bearerAuth", [])] else none))
      ∧ (∀ d : DocFields,
        ((docOperation (some d)).security = some [("bearerAuth", [])]
          ↔ d.bearerAuth = true))
      ∧ generateSwaggerFromController profileController "" =
          [SwaggerPathItem.mk "/users/profile" "get"
            (SwaggerOperation.mk "Get user profile" "Get the authenticated user profile"
              ["Users"] (some [("bearerAuth", [])])
              [(200, "Profile retrieved successfully"), (401, "Unauthorized")])]
      ∧ (createRouterFromController profileController).map
          (fun r => (r.httpMethod, r.fullPath)) = [(HttpMethod.get, "/users/profile")] := by
  refine ⟨?_, ?_, by decide, by decide⟩
  · intro config
    rcases config with ⟨m, p, s, d, t, a, b, r⟩
    cases a with
    | none => simp [DocHelpers.endpoint]
    | some flag => cases flag <;> simp [DocHelpers.endpoint]
  · intro d
    cases hb : d.bearerAuth <;> simp [docOperation, hb]

/-- C7: the documentation materializer is total on structurally
well-formed controller metadata: it emits exactly one path item per
verb-decorated route (never fewer, never an error), every emitted item
is structurally well-formed, and missing optional documentation fields
degrade to defaults — an entirely absent `docFields` yields the minimal
operation, and an absent description falls back to the summary, both in
the spec-modelled materializer and in the `DocHelpers.endpoint` helper
of the sources. -/
theorem docs_generator_total_with_defaults :
    (∀ (ctrl : ControllerMetadata) (mount : String),
        (generateSwaggerFromController ctrl mount).length
          = ctrl.routes.countP (fun r => r.httpMethod.isSome))
      ∧ (∀ (ctrl : ControllerMetadata) (mount : String),
        (generateSwaggerFromController ctrl mount).all wellFormedItem = true)
      ∧ docOperation none = SwaggerOperation.mk "" "" [] none []
      ∧ (∀ (s : Option String) (t : List String) (rs : List (Nat × String)) (b : Bool),
        (docOperation (some (DocFields.mk s none t rs b))).description = s.getD "")
      ∧ (∀ (m p su : String) (t : List String) (a : Option Bool) (bd : Option String)
          (rs : Option (List Nat)),
        (DocHelpers.endpoint (EndpointConfig.mk m p su none t a bd rs)).description = su) := by
  refine ⟨?_, ?_, rfl, fun s t rs b => rfl, fun m p su t a bd rs => rfl⟩
  · intro ctrl mount
    exact docItems_length ctrl.basePath mount ctrl.routes
  · intro ctrl mount
    apply List.all_eq_true.mpr
    intro item hmem
    rcases List.mem_filterMap.mp hmem with ⟨r, _, hsome⟩
    exact wellFormed_docItem hsome
